import Mathlib

/-!
# Verification of the midi-footswitch firmware core (src/code.py)

Shallow embedding of the input-sampling and mode state machine:

* `FootSwitch` with its three per-tick behaviors `mode_change_poll`,
  `toggle_poll`, `momentary_poll` and the dispatch in `FootSwitch.monitor`;
* the per-tick broadcast step of `ModeChangeSwitch.monitor`;
* the per-tick mapping/gating step of `ExpressionPedal.monitor`.

The asyncio scheduling loop is abstracted into explicit per-tick step
functions: one call of a step function corresponds to one iteration of the
corresponding `while True` body after its `asyncio.sleep`.  MIDI transport
(`midi_out.send`) is modelled by collecting the emitted `ControlChange`
messages in a list, in emission order.  Logging (`log`) has no effect on
state and is dropped.

Two pieces of behavior the source delegates to external libraries that are
not part of the source tree of this repository are modelled from the spec and
marked as such in their doc comments: the debounced button
(`adafruit_debouncer.Button`, modelled as `DebouncedInput`) and the linear
range mapping (`simpleio.map_range`, modelled as `mapValue`).
-/

/-- A Control Change message, as constructed by
`ControlChange(cc_parameter, value)` in the source.  The value is kept as an
integer because the expression-pedal path can, per the spec, produce values
outside `[0, 127]`. -/
structure ControlChange where
  control : ℕ
  value : ℤ
  deriving DecidableEq

/-- Modelled from the spec: the debounced switch wrapper
(`adafruit_debouncer.Button` in the source) is an external library, not under
`src/`.  Per the spec it exposes, for the current tick only, the edge flags
`pressed` and `released`, plus a short-tap counter (`short_count`) that
accumulates completed short press-then-release cycles and "is read and reset
by the consumer". -/
structure DebouncedInput where
  pressed : Bool
  released : Bool
  short_count : ℕ
  deriving DecidableEq

/-- The per-tick stimulus the debounced button derives from the raw pin: which
edge events fire this tick, and how many completed short taps get registered
this tick. -/
structure TickStimulus where
  pressedEdge : Bool
  releasedEdge : Bool
  shortTaps : ℕ
  deriving DecidableEq

/-- Modelled from the spec: `Button.update()` (external library, not under
`src/`).  It refreshes the one-tick edge flags from the raw pin and adds the
newly registered short taps to the short-tap counter; the counter is "never
silently cleared by time alone" but only by a consumer read. -/
def DebouncedInput.update (d : DebouncedInput) (s : TickStimulus) : DebouncedInput :=
  { pressed := s.pressedEdge
    released := s.releasedEdge
    short_count := d.short_count + s.shortTaps }

/-- Modelled from the spec: reading the short-tap counter consumes it ("the
counter is read and reset by the consumer").  Returns the read value and the
input with its counter cleared. -/
def DebouncedInput.readShortCount (d : DebouncedInput) : ℕ × DebouncedInput :=
  (d.short_count, { d with short_count := 0 })

/-- State of `FootSwitch` (src/code.py, `__init__`).  `pressed` is the latched
toggle state, `momentary` selects the mode (`false` = Toggle, `true` =
Momentary), `mode_change` is the mode-select-enabled flag written by
`ModeChangeSwitch`.  The `pin`, `midi_out` and `update_rate` fields are I/O
and scheduling plumbing with no effect on the per-tick state machine and are
not modelled. -/
structure FootSwitch where
  cc_parameter : ℕ
  pressed : Bool
  momentary : Bool
  mode_change : Bool
  deriving DecidableEq

/-- `FootSwitch.__init__`: `pressed = False`, `mode_change = False`, with
`momentary` taken from the descriptor. -/
def mkFootSwitch (cc_parameter : ℕ) (momentary : Bool) : FootSwitch :=
  { cc_parameter := cc_parameter
    pressed := false
    momentary := momentary
    mode_change := false }

/-- `FootSwitch.__init__` when the descriptor omits the optional `momentary`
field: the source default is `momentary=False`. -/
def mkFootSwitchDefault (cc_parameter : ℕ) : FootSwitch :=
  mkFootSwitch cc_parameter false

/-- `FootSwitch.mode_change_poll` (src/code.py lines 96-110): update the
button, read the short-tap counter; `0` taps leave everything unchanged, `1`
tap sets toggle mode (`momentary = False`), `2` or more set momentary mode
(`momentary = True`).  No message is sent.  The counter read consumes it
(see `DebouncedInput.readShortCount`). -/
def FootSwitch.mode_change_poll (fs : FootSwitch) (d : DebouncedInput) :
    FootSwitch × DebouncedInput × List ControlChange :=
  let (c, d') := d.readShortCount
  if c = 0 then (fs, d', [])
  else if c = 1 then ({ fs with momentary := false }, d', [])
  else ({ fs with momentary := true }, d', [])

/-- `FootSwitch.toggle_poll` (src/code.py lines 112-123): on a `pressed` edge,
flip `self.pressed` and send `ControlChange(cc_parameter, int(pressed) * 127)`
computed from the new state; otherwise do nothing. -/
def FootSwitch.toggle_poll (fs : FootSwitch) (d : DebouncedInput) :
    FootSwitch × DebouncedInput × List ControlChange :=
  if d.pressed then
    let fs' := { fs with pressed := !fs.pressed }
    (fs', d, [⟨fs.cc_parameter, if fs'.pressed then 127 else 0⟩])
  else (fs, d, [])

/-- `FootSwitch.momentary_poll` (src/code.py lines 125-139): on a `pressed`
edge send value `127`, on a `released` edge send value `0`; the latched
`pressed` state is not touched. -/
def FootSwitch.momentary_poll (fs : FootSwitch) (d : DebouncedInput) :
    FootSwitch × DebouncedInput × List ControlChange :=
  let ms1 : List ControlChange := if d.pressed then [⟨fs.cc_parameter, 127⟩] else []
  let ms2 : List ControlChange := if d.released then [⟨fs.cc_parameter, 0⟩] else []
  (fs, d, ms1 ++ ms2)

/-- One iteration of the `FootSwitch.monitor` loop body (src/code.py lines
84-93), given the already-updated button state: if `mode_change` is set, run
`mode_change_poll` and `continue` (skipping any CC emission this tick);
otherwise dispatch on `momentary` to `toggle_poll` or `momentary_poll`. -/
def FootSwitch.monitorDispatch (fs : FootSwitch) (d : DebouncedInput) :
    FootSwitch × DebouncedInput × List ControlChange :=
  if fs.mode_change then fs.mode_change_poll d
  else if !fs.momentary then fs.toggle_poll d
  else fs.momentary_poll d

/-- One full poll tick of `FootSwitch.monitor`: the button `update()` (every
branch of the source performs it first) followed by the dispatch. -/
def FootSwitch.poll (fs : FootSwitch) (d : DebouncedInput) (s : TickStimulus) :
    FootSwitch × DebouncedInput × List ControlChange :=
  fs.monitorDispatch (d.update s)

/-- Run of `FootSwitch.monitor` over a finite sequence of tick stimuli,
collecting all emitted messages in emission order. -/
def FootSwitch.run (fs : FootSwitch) (d : DebouncedInput) :
    List TickStimulus → FootSwitch × DebouncedInput × List ControlChange
  | [] => (fs, d, [])
  | s :: rest =>
    let (fs1, d1, ms) := fs.poll d s
    let (fs2, d2, ms') := fs1.run d1 rest
    (fs2, d2, ms ++ ms')

/-- A quiescent button state: no edges pending, no taps accumulated. -/
def DebouncedInput.idle : DebouncedInput :=
  { pressed := false, released := false, short_count := 0 }

/-- Stimulus for a tick on which the debounced press edge fires. -/
def pressTick : TickStimulus :=
  { pressedEdge := true, releasedEdge := false, shortTaps := 0 }

/-- Stimulus for a tick on which the debounced release edge fires. -/
def releaseTick : TickStimulus :=
  { pressedEdge := false, releasedEdge := true, shortTaps := 0 }

/-- Stimulus for a tick with no edge activity that registers `n` completed
short taps. -/
def tapsTick (n : ℕ) : TickStimulus :=
  { pressedEdge := false, releasedEdge := false, shortTaps := n }

/-- State of `ModeChangeSwitch` (src/code.py, `__init__`): just the mirror
`is_on` of the last observed pin level; starts `False`.  The pin object and
`update_rate` are I/O plumbing and are not modelled; note the source wires the
pin as a plain `digitalio.DigitalInOut` read directly, with no debouncer. -/
structure ModeChangeSwitch where
  is_on : Bool
  deriving DecidableEq

/-- One iteration of the `ModeChangeSwitch.monitor` loop body (src/code.py
lines 172-179), given the raw pin level `pinValue` read this tick
(`self.pin.value`): if it differs from `is_on`, store it in `is_on` and write
the new value into the `mode_change` flag of every owned FootSwitch; otherwise do
nothing. -/
def ModeChangeSwitch.monitorTick (ms : ModeChangeSwitch) (pinValue : Bool)
    (foot_switches : List FootSwitch) : ModeChangeSwitch × List FootSwitch :=
  if pinValue ≠ ms.is_on then
    ({ is_on := pinValue }, foot_switches.map fun fs => { fs with mode_change := pinValue })
  else (ms, foot_switches)

/-- Modelled from the spec: a minimum-stable-duration debounce filter, the
behavior section 4.1 of the spec requires of a `DebouncedInput` level
("applies a minimum stable-duration filter (debounce) before accepting a
level change as genuine").  No such filter exists in the source for the mode
switch; this definition exists to compare the debounced broadcast claimed by
the spec against the raw-pin broadcast of the source.  `level` is the accepted
debounced level and `count` the number of consecutive raw samples that
disagreed with it. -/
structure DebounceFilter where
  level : Bool
  count : ℕ
  deriving DecidableEq

/-- Modelled from the spec: one debounce-filter sample.  A raw sample equal to
the accepted level resets the disagreement run; a disagreeing sample is
accepted as a genuine level change only once `stableTicks` consecutive
disagreeing samples have been seen. -/
def DebounceFilter.update (f : DebounceFilter) (stableTicks : ℕ) (raw : Bool) :
    DebounceFilter :=
  if raw = f.level then { f with count := 0 }
  else if stableTicks ≤ f.count + 1 then { level := raw, count := 0 }
  else { f with count := f.count + 1 }

/-- State of `ExpressionPedal` (src/code.py, `__init__`): `last_value` starts
at `0`; `sensitivity`, `pot_min`, `pot_max` come from the descriptor (source
defaults `2`, `400`, `65535`; `cc_parameter` defaults to `11`).  The pin,
`AnalogIn` object, `midi_out` and `update_rate` are I/O and scheduling
plumbing and are not modelled. -/
structure ExpressionPedal where
  cc_parameter : ℕ
  last_value : ℤ
  sensitivity : ℤ
  pot_min : ℤ
  pot_max : ℤ
  deriving DecidableEq

/-- `ExpressionPedal.__init__`: `last_value = 0`, remaining fields from the
descriptor. -/
def mkExpressionPedal (cc_parameter : ℕ) (sensitivity pot_min pot_max : ℤ) :
    ExpressionPedal :=
  { cc_parameter := cc_parameter
    last_value := 0
    sensitivity := sensitivity
    pot_min := pot_min
    pot_max := pot_max }

/-- Modelled from the spec: the range-mapping step
(`simpleio.map_range(raw, pot_min, pot_max, 0, 127)` followed by `round` in
the source; `simpleio` is an external library, not under `src/`).  Per the
spec it linearly maps `[pot_min, pot_max]` onto `[0, 127]`, rounding to
nearest, and "values outside the input bounds are not explicitly clamped by
the mapping formula and may numerically fall outside 0-127". -/
def mapValue (raw pmin pmax : ℤ) : ℤ :=
  round ((((raw - pmin : ℤ) : ℚ) / ((pmax - pmin : ℤ) : ℚ)) * 127)

/-- One iteration of the `ExpressionPedal.monitor` loop body (src/code.py
lines 214-227), given the raw analog sample read this tick: map the sample,
then send a message with the mapped value and record it in `last_value` iff
the mapped value moved by at least `sensitivity` or it reached an end of the
range (`0` or `127`) it was not already at. -/
def ExpressionPedal.step (p : ExpressionPedal) (raw : ℤ) :
    ExpressionPedal × List ControlChange :=
  let current_value := mapValue raw p.pot_min p.pot_max
  if p.sensitivity ≤ |current_value - p.last_value| ∨
      (current_value ≠ p.last_value ∧ (current_value = 0 ∨ current_value = 127)) then
    ({ p with last_value := current_value }, [⟨p.cc_parameter, current_value⟩])
  else (p, [])

/-- Run of `ExpressionPedal.monitor` over a finite sequence of raw samples,
collecting all emitted messages in emission order. -/
def ExpressionPedal.run (p : ExpressionPedal) :
    List ℤ → ExpressionPedal × List ControlChange
  | [] => (p, [])
  | raw :: rest =>
    let (p1, ms) := p.step raw
    let (p2, ms') := p1.run rest
    (p2, ms ++ ms')

/-- A concrete FootSwitch on a tick where mode-select is enabled: cc 81,
momentary mode, `mode_change` set by the broadcaster. -/
def modeSelectExample : FootSwitch :=
  { mkFootSwitch 81 true with mode_change := true }

/-- Helper: one `ExpressionPedal.step` either leaves the pedal untouched and
emits nothing, or records some value `v` in `last_value` and emits exactly the
one message carrying `v`. -/
theorem ExpressionPedal.step_cases (p : ExpressionPedal) (raw : ℤ) :
    p.step raw = (p, []) ∨
    ∃ v, p.step raw = ({ p with last_value := v }, [⟨p.cc_parameter, v⟩]) := by
  by_cases h : p.sensitivity ≤ |mapValue raw p.pot_min p.pot_max - p.last_value| ∨
      (mapValue raw p.pot_min p.pot_max ≠ p.last_value ∧
        (mapValue raw p.pot_min p.pot_max = 0 ∨ mapValue raw p.pot_min p.pot_max = 127))
  · exact Or.inr ⟨mapValue raw p.pot_min p.pot_max, by simp [ExpressionPedal.step, h]⟩
  · exact Or.inl (by simp [ExpressionPedal.step, h])

/-- Helper: over any run, the final `last_value` is the value of the last
emitted message, or the starting `last_value` when the run emitted nothing. -/
theorem ExpressionPedal.run_last_value_eq (raws : List ℤ) : ∀ p : ExpressionPedal,
    (p.run raws).1.last_value =
      ((p.run raws).2.getLast?).elim p.last_value (fun m => m.value) := by
  induction raws with
  | nil => intro p; simp [ExpressionPedal.run]
  | cons raw rest ih =>
    intro p
    rcases p.step_cases raw with hstep | ⟨v, hstep⟩
    · simp only [ExpressionPedal.run, hstep]
      simpa using ih p
    · simp only [ExpressionPedal.run, hstep]
      have := ih { p with last_value := v }
      rcases hrun : ({ p with last_value := v } : ExpressionPedal).run rest with ⟨p2, ms⟩
      rw [hrun] at this
      cases ms with
      | nil => simpa using this
      | cons m tail =>
        have hlast : ((m :: tail).getLast?).isSome := by simp [List.getLast?_isSome]
        rcases Option.isSome_iff_exists.mp hlast with ⟨x, hx⟩
        simp only [List.cons_append, List.nil_append] at *
        simp [List.getLast?_cons_cons, hx] at this ⊢
        simpa [hx] using this

/-- Claim C1: on every FootSwitch poll tick on which the mode-select flag
(`mode_change`) is set, the tick is consumed by mode-select resolution: a
short-tap count of 0 changes nothing, a count of exactly 1 selects toggle
mode (`momentary = false`), a count of 2 or more selects momentary mode, and
no CC message is emitted on that tick regardless of any press or release
edges in the stimulus. -/
theorem footSwitch_modeSelect_tick (fs : FootSwitch) (d : DebouncedInput) (s : TickStimulus)
    (h : fs.mode_change = true) :
    (fs.poll d s).2.2 = [] ∧
    (fs.poll d s).1 =
      if d.short_count + s.shortTaps = 0 then fs
      else if d.short_count + s.shortTaps = 1 then { fs with momentary := false }
      else { fs with momentary := true } := by
  simp only [FootSwitch.poll, FootSwitch.monitorDispatch, h, if_true,
    FootSwitch.mode_change_poll, DebouncedInput.update, DebouncedInput.readShortCount]
  split_ifs <;> simp_all

/-- Witness for C1: a concrete mode-select tick (one short tap) switches a
momentary switch to toggle mode and emits nothing. -/
theorem footSwitch_modeSelect_tick_witness :
    modeSelectExample.mode_change = true ∧
    ((modeSelectExample.poll DebouncedInput.idle (tapsTick 1)).2.2 = [] ∧
      (modeSelectExample.poll DebouncedInput.idle (tapsTick 1)).1 =
        if DebouncedInput.idle.short_count + (tapsTick 1).shortTaps = 0 then modeSelectExample
        else if DebouncedInput.idle.short_count + (tapsTick 1).shortTaps = 1 then
          { modeSelectExample with momentary := false }
        else { modeSelectExample with momentary := true }) :=
  ⟨rfl, footSwitch_modeSelect_tick modeSelectExample DebouncedInput.idle (tapsTick 1) rfl⟩

/-- Claim C2: on every FootSwitch poll tick on which the mode-select flag is
set, the short-tap counter is zero once the mode-select step completes,
whatever its prior value (0, 1, or 2 and more are all covered by the
universally quantified `d` and `s`).  The counter consumption itself is
spec-modelled (`DebouncedInput.readShortCount`): the debounced button lives
in an external library. -/
theorem footSwitch_modeSelect_consumes (fs : FootSwitch) (d : DebouncedInput) (s : TickStimulus)
    (h : fs.mode_change = true) :
    (fs.poll d s).2.1.short_count = 0 := by
  simp only [FootSwitch.poll, FootSwitch.monitorDispatch, h, if_true,
    FootSwitch.mode_change_poll, DebouncedInput.update, DebouncedInput.readShortCount]
  split_ifs <;> rfl

/-- Witness for C2: a mode-select tick starting from an accumulated count of 5
leaves the counter at zero. -/
theorem footSwitch_modeSelect_consumes_witness :
    modeSelectExample.mode_change = true ∧
    (modeSelectExample.poll ⟨false, false, 5⟩ (tapsTick 0)).2.1.short_count = 0 :=
  ⟨rfl, footSwitch_modeSelect_consumes modeSelectExample ⟨false, false, 5⟩ (tapsTick 0) rfl⟩

/-- Claim C3: for a FootSwitch in toggle mode with mode-select disabled, each
pressed edge flips the latched `pressed` state and emits exactly one message
whose value is 127 when the new state is on and 0 when it is off, while ticks
without a pressed edge (released edges included) emit nothing; concretely,
starting from off with cc 81, the sequence press, release, press, release
emits exactly {81, 127} then {81, 0}. -/
theorem footSwitch_toggle_tick (fs : FootSwitch) (d : DebouncedInput) (s : TickStimulus)
    (hmc : fs.mode_change = false) (hm : fs.momentary = false) :
    (fs.poll d s).1.pressed = (if s.pressedEdge then !fs.pressed else fs.pressed) ∧
    (fs.poll d s).2.2 =
      (if s.pressedEdge then [⟨fs.cc_parameter, if fs.pressed then 0 else 127⟩] else []) ∧
    ((mkFootSwitch 81 false).run DebouncedInput.idle
        [pressTick, releaseTick, pressTick, releaseTick]).2.2 = [⟨81, 127⟩, ⟨81, 0⟩] := by
  refine ⟨?_, ?_, by decide⟩ <;>
  · simp only [FootSwitch.poll, FootSwitch.monitorDispatch, hmc, hm,
      FootSwitch.toggle_poll, DebouncedInput.update]
    split_ifs <;> simp_all [Bool.not_eq_true]

/-- Witness for C3: a freshly constructed toggle switch on a concrete press
tick. -/
theorem footSwitch_toggle_tick_witness :
    (mkFootSwitch 81 false).mode_change = false ∧
    (mkFootSwitch 81 false).momentary = false ∧
    (((mkFootSwitch 81 false).poll DebouncedInput.idle pressTick).1.pressed =
        (if pressTick.pressedEdge then !(mkFootSwitch 81 false).pressed
         else (mkFootSwitch 81 false).pressed) ∧
      ((mkFootSwitch 81 false).poll DebouncedInput.idle pressTick).2.2 =
        (if pressTick.pressedEdge then
          [⟨(mkFootSwitch 81 false).cc_parameter,
            if (mkFootSwitch 81 false).pressed then 0 else 127⟩]
         else []) ∧
      ((mkFootSwitch 81 false).run DebouncedInput.idle
          [pressTick, releaseTick, pressTick, releaseTick]).2.2 = [⟨81, 127⟩, ⟨81, 0⟩]) :=
  ⟨rfl, rfl, footSwitch_toggle_tick (mkFootSwitch 81 false) DebouncedInput.idle pressTick rfl rfl⟩

/-- Claim C4: for a FootSwitch in momentary mode with mode-select disabled,
each pressed edge emits exactly one message valued 127 and each released edge
exactly one message valued 0, and a tick with no edge emits nothing. -/
theorem footSwitch_momentary_tick (fs : FootSwitch) (d : DebouncedInput) (s : TickStimulus)
    (hmc : fs.mode_change = false) (hm : fs.momentary = true) :
    (fs.poll d s).2.2 =
      (if s.pressedEdge then [⟨fs.cc_parameter, 127⟩] else []) ++
      (if s.releasedEdge then [⟨fs.cc_parameter, 0⟩] else []) := by
  simp [FootSwitch.poll, FootSwitch.monitorDispatch, hmc, hm,
    FootSwitch.momentary_poll, DebouncedInput.update]

/-- Witness for C4: a momentary switch with cc 83 on a concrete press tick. -/
theorem footSwitch_momentary_tick_witness :
    (mkFootSwitch 83 true).mode_change = false ∧
    (mkFootSwitch 83 true).momentary = true ∧
    ((mkFootSwitch 83 true).poll DebouncedInput.idle pressTick).2.2 =
      (if pressTick.pressedEdge then [⟨(mkFootSwitch 83 true).cc_parameter, 127⟩] else []) ++
      (if pressTick.releasedEdge then [⟨(mkFootSwitch 83 true).cc_parameter, 0⟩] else []) :=
  ⟨rfl, rfl, footSwitch_momentary_tick (mkFootSwitch 83 true) DebouncedInput.idle pressTick rfl rfl⟩

/-- Claim C5: on every ExpressionPedal poll tick, a message carrying the
mapped value is emitted and `last_value` is updated exactly when the mapped
value moved by at least `sensitivity` from `last_value`, or it differs from
`last_value` and equals 0 or 127; concretely, with sensitivity 2 and
`last_value` 50 (bounds chosen so the mapping is the identity on 0..127),
mapped 51 emits nothing, mapped 52 emits {11, 52}, and mapped 0 emits {11, 0}
despite the sensitivity gate. -/
theorem expressionPedal_gate (p : ExpressionPedal) (raw : ℤ) :
    (p.step raw =
        ({ p with last_value := mapValue raw p.pot_min p.pot_max },
          [⟨p.cc_parameter, mapValue raw p.pot_min p.pot_max⟩]) ↔
      (p.sensitivity ≤ |mapValue raw p.pot_min p.pot_max - p.last_value| ∨
        (mapValue raw p.pot_min p.pot_max ≠ p.last_value ∧
          (mapValue raw p.pot_min p.pot_max = 0 ∨ mapValue raw p.pot_min p.pot_max = 127)))) ∧
    (p.step raw = (p, []) ↔
      ¬(p.sensitivity ≤ |mapValue raw p.pot_min p.pot_max - p.last_value| ∨
        (mapValue raw p.pot_min p.pot_max ≠ p.last_value ∧
          (mapValue raw p.pot_min p.pot_max = 0 ∨ mapValue raw p.pot_min p.pot_max = 127)))) ∧
    (ExpressionPedal.step ⟨11, 50, 2, 0, 127⟩ 51 = (⟨11, 50, 2, 0, 127⟩, []) ∧
      ExpressionPedal.step ⟨11, 50, 2, 0, 127⟩ 52 = (⟨11, 52, 2, 0, 127⟩, [⟨11, 52⟩]) ∧
      ExpressionPedal.step ⟨11, 50, 2, 0, 127⟩ 0 = (⟨11, 0, 2, 0, 127⟩, [⟨11, 0⟩])) := by
  refine ⟨?_, ?_, ?_, ?_, ?_⟩
  · by_cases h : p.sensitivity ≤ |mapValue raw p.pot_min p.pot_max - p.last_value| ∨
        (mapValue raw p.pot_min p.pot_max ≠ p.last_value ∧
          (mapValue raw p.pot_min p.pot_max = 0 ∨ mapValue raw p.pot_min p.pot_max = 127))
    · simp [ExpressionPedal.step, h]
    · simp only [ExpressionPedal.step, if_neg h]
      simp [h]
  · by_cases h : p.sensitivity ≤ |mapValue raw p.pot_min p.pot_max - p.last_value| ∨
        (mapValue raw p.pot_min p.pot_max ≠ p.last_value ∧
          (mapValue raw p.pot_min p.pot_max = 0 ∨ mapValue raw p.pot_min p.pot_max = 127))
    · simp [ExpressionPedal.step, h]
    · simp [ExpressionPedal.step, h]
  · have h51 : mapValue 51 0 127 = 51 := by norm_num [mapValue, round_eq]
    simp [ExpressionPedal.step, h51]
  · have h52 : mapValue 52 0 127 = 52 := by norm_num [mapValue, round_eq]
    simp [ExpressionPedal.step, h52]
  · have h0 : mapValue 0 0 127 = 0 := by norm_num [mapValue, round_eq]
    simp [ExpressionPedal.step, h0]

/-- Claim C6: for a pedal as built by the constructor (`last_value = 0`) and
after any sequence of poll ticks, `last_value` equals the value of the most
recent message the pedal actually sent, falling back to the construction
value 0 when nothing has been sent yet (in particular immediately after
construction, with the empty run). -/
theorem expressionPedal_lastValue_tracks_sends (cc : ℕ) (sens pmin pmax : ℤ)
    (raws : List ℤ) :
    ((mkExpressionPedal cc sens pmin pmax).run raws).1.last_value =
      (((mkExpressionPedal cc sens pmin pmax).run raws).2.getLast?).elim 0
        (fun m => m.value) :=
  ExpressionPedal.run_last_value_eq raws (mkExpressionPedal cc sens pmin pmax)

/-- Claim C7: the range mapping is not clamped: the raw sample 0, which lies
below the default lower input bound 400, maps (with the default bounds 400
and 65535) to -1, a value outside 0..127, before the sensitivity/boundary
rule ever sees it.  The mapping is spec-modelled (`mapValue`): the source
delegates it to an external library. -/
theorem mapValue_unclamped_below_range :
    (0 : ℤ) < 400 ∧ mapValue 0 400 65535 = -1 ∧ mapValue 0 400 65535 < 0 := by
  refine ⟨by norm_num, ?_, ?_⟩ <;> norm_num [mapValue, round_eq]

/-- Claim C8, amended: on every ModeChangeSwitch poll tick the broadcaster
compares the raw pin level it reads this tick (not a debounced level; the
source wires the pin without any debouncer) against `is_on`; exactly when
they differ it stores the raw level in `is_on` and writes it into the
`mode_change` flag of every owned FootSwitch, so after the tick `is_on`
equals the raw level and, on a broadcast tick, so does every owned flag. -/
theorem modeChange_broadcast_raw (ms : ModeChangeSwitch) (pinValue : Bool)
    (sws : List FootSwitch) :
    (ms.monitorTick pinValue sws).1.is_on = pinValue ∧
    (ms.monitorTick pinValue sws).2 =
      (if pinValue = ms.is_on then sws
       else sws.map fun fs => { fs with mode_change := pinValue }) := by
  by_cases h : pinValue = ms.is_on <;>
    simp [ModeChangeSwitch.monitorTick, h]

/-- Counterexample to C8 as stated: the claim says the broadcast follows the
debounced level of an owned DebouncedInput.  The spec (section 4.1) requires
a debounce window independent of the poll interval, so a window of two poll
ticks is a legitimate instance; under it, a one-tick raw glitch to high from
a settled-low filter leaves the debounced level low — yet the source step,
which reads the raw pin, flips `is_on` to high and broadcasts `true` into the
owned FootSwitch, so the flags do not equal the debounced level. -/
theorem modeChange_broadcast_not_debounced :
    ((DebounceFilter.mk false 0).update 2 true).level = false ∧
    ((ModeChangeSwitch.mk false).monitorTick true [mkFootSwitch 81 false]).1.is_on = true ∧
    ((ModeChangeSwitch.mk false).monitorTick true [mkFootSwitch 81 false]).2.map
        (fun fs => fs.mode_change) = [true] := by
  refine ⟨by decide, by decide, by decide⟩

/-- Claim C9: a FootSwitch built from a descriptor that omits the optional
momentary field starts in toggle mode (`momentary = false`, the construction
default), with the latched state off and mode-select disabled. -/
theorem footSwitch_init_defaults (cc : ℕ) :
    (mkFootSwitchDefault cc).momentary = false ∧ (mkFootSwitchDefault cc).pressed = false ∧
    (mkFootSwitchDefault cc).mode_change = false :=
  ⟨rfl, rfl, rfl⟩

/-- Claim C10: the latched `pressed` state is modified only by pressed edges
processed in toggle mode: `mode_change_poll` and `momentary_poll` leave it
unchanged and `toggle_poll` flips it exactly on a pressed edge; concretely, a
toggled-on switch that is mode-selected to momentary (double tap), pressed
and released there, then mode-selected back to toggle (single tap), retains
`pressed = true` throughout, and the next toggle-mode press flips it to off,
emitting {81, 0} rather than starting over from off. -/
theorem footSwitch_pressed_frame (fs : FootSwitch) (d : DebouncedInput) :
    (fs.mode_change_poll d).1.pressed = fs.pressed ∧
    (fs.momentary_poll d).1.pressed = fs.pressed ∧
    (fs.toggle_poll d).1.pressed = (if d.pressed then !fs.pressed else fs.pressed) ∧
    (let r1 := ({ mkFootSwitch 81 false with pressed := true, mode_change := true } :
        FootSwitch).poll DebouncedInput.idle (tapsTick 2)
     let r2 := ({ r1.1 with mode_change := false } : FootSwitch).run r1.2.1
        [pressTick, releaseTick]
     let r3 := ({ r2.1 with mode_change := true } : FootSwitch).poll r2.2.1 (tapsTick 1)
     let r4 := ({ r3.1 with mode_change := false } : FootSwitch).poll r3.2.1 pressTick
     r1.1.momentary = true ∧ r2.1.pressed = true ∧ r3.1.momentary = false ∧
       r3.1.pressed = true ∧ r4.1.pressed = false ∧ r4.2.2 = [⟨81, 0⟩]) := by
  refine ⟨?_, rfl, ?_, by decide⟩
  · simp only [FootSwitch.mode_change_poll, DebouncedInput.readShortCount]
    split_ifs <;> rfl
  · simp only [FootSwitch.toggle_poll]
    split_ifs <;> simp_all
